import Mathlib

/-
  Shallow embedding of the trust-escalation core of the ice_out repository.

  Sources embedded:
  - supabase/migrations/20260129210000_validations_profiles_status.sql
    (recompute_sighting_validations, the unique index
    validations_unique_device_per_sighting, the insert policy
    validations_insert_anon, the sightings_update_trusted policy, the
    fingerprint length check constraint), together with the v1 schema
    migration that installs the after-insert / after-delete triggers
    invoking recompute_sighting_validations.
  - components/Sighting/SightingDrawer.tsx (handleValidate, handleConfirm).
  - lib/privacy/hash.ts (generateValidatorHash).

  Tables with a primary key are modelled as partial maps from the key;
  the validations table as a list of rows (its uniqueness constraint is
  a partial unique index, modelled as an explicit pre-insert check, which
  is how PostgreSQL rejects with SQLSTATE 23505).  Row ids are drawn from
  a counter in the state, standing in for gen_random_uuid().
  Coordinates are modelled as rationals; the haversine distance function
  itself (lib/geo/haversine, imported by the drawer but not part of the
  sources) is kept abstract as a boolean-valued parameter, since every
  property below depends only on its verdict, never on its internals.
-/

namespace IceOut

/-- status check constraint: unverified | verified | active | confirmed. -/
inductive Status where
  | unverified
  | verified
  | active
  | confirmed
deriving DecidableEq, Repr

/-- profiles_role_chk: anonymous | trusted | admin. -/
inductive Role where
  | anonymous
  | trusted
  | admin
deriving DecidableEq, Repr

abbrev SightingId := Nat
abbrev UserId := Nat

structure GeoPos where
  lat : Rat
  lng : Rat
deriving DecidableEq, Repr

/-- A row of public.sightings (the fields the core reads or writes:
    lat, lng, the length of the media jsonb array, status,
    validations_count). -/
structure SightingRow where
  lat : Rat
  lng : Rat
  mediaLen : Nat
  status : Status
  validationsCount : Nat
deriving DecidableEq, Repr

/-- A row of public.validations after the 20260129210000 migration:
    sighting_id, device_fingerprint (nullable), is_within_range,
    validator_id (nullable), and the deprecated validator_lat /
    validator_lng columns that new inserts leave null. -/
structure ValidationRow where
  id : Nat
  sightingId : SightingId
  deviceFingerprint : Option String
  isWithinRange : Bool
  validatorId : Option UserId
  validatorLat : Option Rat
  validatorLng : Option Rat
deriving DecidableEq, Repr

/-- Database state: sightings and profiles keyed by primary key,
    validations as a bag of rows, and a fresh-id counter. -/
structure DB where
  sightings : SightingId → Option SightingRow
  validations : List ValidationRow
  profiles : UserId → Option Role
  nextId : Nat

/-- select count(*) from public.validations where sighting_id = sid. -/
def countValidations (db : DB) (sid : SightingId) : Nat :=
  (db.validations.filter (fun v => v.sightingId == sid)).length

/-- The case expression of recompute_sighting_validations:
    when v_count >= 3 then verified
    when v_media_len > 0 and v_count >= 2 then verified
    else unverified. -/
def statusFromCount (mediaLen count : Nat) : Status :=
  if count ≥ 3 then .verified
  else if mediaLen > 0 ∧ count ≥ 2 then .verified
  else .unverified

/-- public.recompute_sighting_validations (20260129210000 version):
    read the sighting's current status; if confirmed, return without
    touching anything; otherwise recount the validation rows, read the
    media length, and update validations_count and status on the row
    (the update's where-clause re-checks status != confirmed, which the
    early return already guarantees for the row being updated).
    A missing sighting makes the update affect no row. -/
def recompute (db : DB) (sid : SightingId) : DB :=
  match db.sightings sid with
  | none => db
  | some s =>
    if s.status = .confirmed then db
    else
      let cnt := countValidations db sid
      { db with sightings := fun i =>
          if i = sid then
            some { s with validationsCount := cnt,
                          status := statusFromCount s.mediaLen cnt }
          else db.sightings i }

/-- char_length(device_fingerprint) between 16 and 256, from the insert
    policy validations_insert_anon and the check constraint
    validations_device_fingerprint_len_chk. -/
def fingerprintLenOk (fp : String) : Bool :=
  16 ≤ fp.length && fp.length ≤ 256

/-- Does a row for (sighting_id, device_fingerprint) already exist?  This
    is what the partial unique index validations_unique_device_per_sighting
    (where device_fingerprint is not null) rejects duplicates against. -/
def hasDeviceRow (db : DB) (sid : SightingId) (fp : String) : Bool :=
  db.validations.any (fun v => v.sightingId == sid && v.deviceFingerprint == some fp)

inductive InsertError where
  | uniqueViolation
  | policyViolation
deriving DecidableEq, Repr

/-- The values a client insert supplies (id comes from the default). -/
structure NewValidation where
  sightingId : SightingId
  deviceFingerprint : Option String
  isWithinRange : Bool
  validatorId : Option UserId
  validatorLat : Option Rat
  validatorLng : Option Rat
deriving DecidableEq, Repr

/-- An insert into public.validations as the database executes it:
    the validations_insert_anon policy requires a non-null
    device_fingerprint of length 16..256; the partial unique index
    rejects a duplicate (sighting_id, device_fingerprint) with 23505;
    on success the row is stored and the after-insert trigger runs
    recompute_sighting_validations for the row's sighting. -/
def insertValidation (db : DB) (nv : NewValidation) : Except InsertError DB :=
  match nv.deviceFingerprint with
  | none => .error .policyViolation
  | some fp =>
    if fingerprintLenOk fp then
      if hasDeviceRow db nv.sightingId fp then .error .uniqueViolation
      else
        let row : ValidationRow :=
          { id := db.nextId
            sightingId := nv.sightingId
            deviceFingerprint := nv.deviceFingerprint
            isWithinRange := nv.isWithinRange
            validatorId := nv.validatorId
            validatorLat := nv.validatorLat
            validatorLng := nv.validatorLng }
        let db1 : DB := { db with validations := row :: db.validations,
                                  nextId := db.nextId + 1 }
        .ok (recompute db1 nv.sightingId)
    else .error .policyViolation

/-- A delete of one validation row by id; the after-delete trigger runs
    recompute_sighting_validations for the deleted row's sighting. -/
def deleteValidation (db : DB) (vid : Nat) : DB :=
  match db.validations.find? (fun v => v.id == vid) with
  | none => db
  | some v =>
    let db1 : DB := { db with validations := db.validations.filter (fun w => w.id != vid) }
    recompute db1 v.sightingId

inductive ValidateOutcome where
  | geolocationError
  | outOfRange
  | duplicateDevice
  | admitted
  | otherError
deriving DecidableEq, Repr

/-- handleValidate from components/Sighting/SightingDrawer.tsx (current
    version): acquire the observer's position (failure surfaces as a
    distinct geolocation error and nothing happens); run
    isWithinProximity(userLat, userLng, sighting.lat, sighting.lng, 500)
    and bail out with the out-of-range message before anything is sent;
    otherwise insert { sighting_id, device_fingerprint, is_within_range:
    true, validator_id? } and map error code 23505 to the
    already-validated message.  The proximity predicate (with the 500 m
    radius applied) is the abstract parameter prox; geo is the outcome of
    navigator.geolocation.getCurrentPosition; fp is the FingerprintJS
    visitorId from getDeviceFingerprint. -/
def handleValidate (prox : GeoPos → GeoPos → Bool) (db : DB) (sid : SightingId)
    (geo : Option GeoPos) (fp : String) (uid : Option UserId) :
    DB × ValidateOutcome :=
  match db.sightings sid with
  | none => (db, .otherError)
  | some s =>
    match geo with
    | none => (db, .geolocationError)
    | some p =>
      if prox p ⟨s.lat, s.lng⟩ then
        match insertValidation db
          { sightingId := sid
            deviceFingerprint := some fp
            isWithinRange := true
            validatorId := uid
            validatorLat := none
            validatorLng := none } with
        | .error .uniqueViolation => (db, .duplicateDevice)
        | .error .policyViolation => (db, .otherError)
        | .ok db1 => (db1, .admitted)
      else (db, .outOfRange)

inductive ConfirmOutcome where
  | confirmedOk
  | forbidden
deriving DecidableEq, Repr

/-- The role test of the sightings_update_trusted policy: an authenticated
    actor whose profile role is trusted or admin. -/
def isTrustedOrAdmin (r : Option Role) : Bool :=
  r == some .trusted || r == some .admin

/-- handleConfirm from SightingDrawer.tsx combined with the
    sightings_update_trusted row-level-security policy: the client issues
    update sightings set status = confirmed where id = sid; the policy
    admits the mutation only when the actor's profile role is trusted or
    admin, otherwise the update is refused and no row changes. -/
def confirmSighting (db : DB) (actor : UserId) (sid : SightingId) :
    DB × ConfirmOutcome :=
  if isTrustedOrAdmin (db.profiles actor) then
    ({ db with sightings := fun i =>
        if i = sid then (db.sightings i).map (fun s => { s with status := .confirmed })
        else db.sightings i }, .confirmedOk)
  else (db, .forbidden)

/-- The validation-changing operations: a validation submission through
    the drawer, or a deletion of a validation row. -/
inductive Event where
  | submit (sid : SightingId) (geo : Option GeoPos) (fp : String) (uid : Option UserId)
  | removeValidation (vid : Nat)

def applyEvent (prox : GeoPos → GeoPos → Bool) (db : DB) : Event → DB
  | .submit sid geo fp uid => (handleValidate prox db sid geo fp uid).1
  | .removeValidation vid => deleteValidation db vid

def applyEvents (prox : GeoPos → GeoPos → Bool) (db : DB) (es : List Event) : DB :=
  es.foldl (applyEvent prox) db

/-- Two validation rows collide on the unique index
    validations_unique_device_per_sighting: same sighting, same non-null
    device fingerprint. -/
def conflictingRows (v w : ValidationRow) : Prop :=
  v.sightingId = w.sightingId ∧ v.deviceFingerprint = w.deviceFingerprint ∧
    v.deviceFingerprint ≠ none

instance (v w : ValidationRow) : Decidable (conflictingRows v w) := by
  unfold conflictingRows; infer_instance

/-- The uniqueness invariant of the partial unique index: no two distinct
    stored rows share a (sighting_id, non-null device_fingerprint) key. -/
def devUnique (db : DB) : Prop :=
  db.validations.Pairwise (fun v w => ¬ conflictingRows v w)

instance (db : DB) : Decidable (devUnique db) :=
  inferInstanceAs (Decidable (db.validations.Pairwise (fun v w => ¬ conflictingRows v w)))

/-- Number of stored rows for one (sighting, device fingerprint) pair. -/
def pairCount (db : DB) (sid : SightingId) (fp : String) : Nat :=
  (db.validations.filter
    (fun v => v.sightingId == sid && v.deviceFingerprint == some fp)).length

/-- The privacy invariant: no stored validation row carries validator
    coordinates. -/
def noRawCoords (db : DB) : Prop :=
  ∀ v ∈ db.validations, v.validatorLat = none ∧ v.validatorLng = none

instance (db : DB) : Decidable (noRawCoords db) :=
  inferInstanceAs
    (Decidable (∀ v ∈ db.validations, v.validatorLat = none ∧ v.validatorLng = none))

/-
  lib/privacy/hash.ts — generateValidatorHash (the legacy Strategy A
  device-identity scheme).  JavaScript semantics made explicit:
  the accumulator is coerced to a signed 32-bit integer by the shift and
  by `hash = hash & hash`; `Math.abs` and `Number.prototype.toString(36)`
  produce the unpadded base-36 digits; `Date.now()` is the nowMs
  parameter; `charCodeAt` yields UTF-16 code units, which for the
  basic-plane strings involved equal the code points. -/

/-- ToInt32: reduce an integer to the signed 32-bit range, as JavaScript
    bitwise operators do. -/
def toInt32 (n : Int) : Int :=
  let m := n % 4294967296
  if m < 2147483648 then m else m - 4294967296

/-- One loop iteration: hash = (hash << 5) - hash + char; hash = hash & hash. -/
def hashStep (hash : Int) (c : Nat) : Int :=
  toInt32 (toInt32 (hash * 32) - hash + c)

/-- The loop of generateValidatorHash over the UTF-16 units of a string,
    starting from hash = 0. -/
def hashCombined (s : String) : Int :=
  s.data.foldl (fun h ch => hashStep h ch.toNat) 0

/-- Base-36 digit characters 0-9, a-z, as `toString(36)` prints them. -/
def base36digit (d : Nat) : Char :=
  if d < 10 then Char.ofNat (48 + d) else Char.ofNat (87 + d)

/-- Digit-extraction loop with explicit fuel (n / 36 strictly decreases,
    so fuel n + 1 always suffices and the recursion stays structural). -/
def toBase36Aux : Nat → Nat → List Char
  | 0, _ => []
  | fuel + 1, n =>
    if n < 36 then [base36digit n]
    else toBase36Aux fuel (n / 36) ++ [base36digit (n % 36)]

/-- Unpadded base-36 digits of a natural number, most significant first
    (`Number.prototype.toString(36)` for a nonnegative integer). -/
def toBase36 (n : Nat) : List Char := toBase36Aux (n + 1) n

def natToString36 (n : Nat) : String := ⟨toBase36 n⟩

/-- generateValidatorHash(sightingId): combined = deviceToken + ":" +
    sightingId; hash the combination; return
    Math.abs(hash).toString(36) + Date.now().toString(36).
    deviceToken is the locally persisted ice_out_validator_token and
    nowMs the clock reading at the call. -/
def generateValidatorHash (deviceToken sightingId : String) (nowMs : Nat) : String :=
  natToString36 (hashCombined (deviceToken ++ ":" ++ sightingId)).natAbs
    ++ natToString36 nowMs

/-- char_length(validator_hash) between 16 and 256: the
    validations_validator_hash_len_chk check constraint and the v1
    validations_insert_anon policy, which every stored validator hash
    must satisfy. -/
def validatorHashLenOk (s : String) : Bool :=
  16 ≤ s.length && s.length ≤ 256

/-! ### Concrete states used to exercise the theorems -/

/-- A 16-char fingerprint (the FingerprintJS visitorId is 32 hex chars;
    16 is the shortest the policy admits). -/
def fpA : String := "aaaaaaaaaaaaaaaa"

def fpB : String := "bbbbbbbbbbbbbbbb"

def fpC : String := "cccccccccccccccc"

/-- A proximity verdict that compares latitudes only — enough to exercise
    both gate outcomes concretely. -/
def proxSameLat : GeoPos → GeoPos → Bool := fun a b => a.lat == b.lat

def sightingOne : SightingRow :=
  { lat := 0, lng := 0, mediaLen := 0, status := .unverified, validationsCount := 0 }

def sightingTwo : SightingRow :=
  { lat := 5, lng := 5, mediaLen := 1, status := .confirmed, validationsCount := 1 }

/-- Sighting 1 fresh and unverified, sighting 2 manually confirmed with a
    single recorded validation; one trusted, one anonymous and one admin
    profile. -/
def db0 : DB :=
  { sightings := fun i =>
      if i = 1 then some sightingOne
      else if i = 2 then some sightingTwo
      else none
    validations := [⟨10, 2, some fpC, true, none, none, none⟩]
    profiles := fun u =>
      if u = 7 then some .trusted
      else if u = 8 then some .anonymous
      else if u = 9 then some .admin
      else none
    nextId := 11 }

/-- A sighting without media that reached verified with exactly three
    validations — the state from which a deletion drops the count below
    the threshold. -/
def dbVerifiedThree : DB :=
  { sightings := fun i =>
      if i = 1 then some { lat := 0, lng := 0, mediaLen := 0,
                           status := .verified, validationsCount := 3 }
      else none
    validations :=
      [ ⟨1, 1, some fpA, true, none, none, none⟩,
        ⟨2, 1, some fpB, true, none, none, none⟩,
        ⟨3, 1, some fpC, true, none, none, none⟩ ]
    profiles := fun _ => none
    nextId := 4 }

/-- A realistic persisted device token (crypto.randomUUID() + "-" +
    Date.now()) and sighting id, as generateValidatorHash receives them. -/
def tokenW : String := "550e8400-e29b-41d4-a716-446655440000-1710000000000"

def sidW : String := "123e4567-e89b-12d3-a456-426614174000"

/-! ### Helper lemmas -/

theorem recompute_validations (db : DB) (sid : SightingId) :
    (recompute db sid).validations = db.validations := by
  unfold recompute
  cases db.sightings sid with
  | none => rfl
  | some s => by_cases h : s.status = .confirmed <;> simp [h]

theorem recompute_profiles (db : DB) (sid : SightingId) :
    (recompute db sid).profiles = db.profiles := by
  unfold recompute
  cases db.sightings sid with
  | none => rfl
  | some s => by_cases h : s.status = .confirmed <;> simp [h]

theorem recompute_nextId (db : DB) (sid : SightingId) :
    (recompute db sid).nextId = db.nextId := by
  unfold recompute
  cases db.sightings sid with
  | none => rfl
  | some s => by_cases h : s.status = .confirmed <;> simp [h]

theorem countValidations_only_validations (db db2 : DB) (sid : SightingId)
    (h : db.validations = db2.validations) :
    countValidations db sid = countValidations db2 sid := by
  unfold countValidations
  rw [h]

theorem statusFromCount_ne_confirmed (m c : Nat) :
    statusFromCount m c ≠ .confirmed := by
  unfold statusFromCount
  split_ifs <;> simp

/-- The case expression of the trigger is exactly the spec's
    effective-threshold rule: verified iff the count reaches 2 with media
    present and 3 otherwise. -/
theorem statusFromCount_spec (m c : Nat) :
    statusFromCount m c =
      if c ≥ (if 0 < m then 2 else 3) then Status.verified else Status.unverified := by
  unfold statusFromCount
  split_ifs <;> first | rfl | omega

theorem DB_ext (a b : DB) (h1 : a.sightings = b.sightings)
    (h2 : a.validations = b.validations) (h3 : a.profiles = b.profiles)
    (h4 : a.nextId = b.nextId) : a = b := by
  cases a
  cases b
  simp only at h1 h2 h3 h4
  subst h1
  subst h2
  subst h3
  subst h4
  rfl

theorem recompute_sightings_other (db : DB) (sid i : SightingId)
    (hi : i ≠ sid) : (recompute db sid).sightings i = db.sightings i := by
  unfold recompute
  cases db.sightings sid with
  | none => rfl
  | some s =>
    by_cases hc : s.status = .confirmed
    · simp [hc]
    · simp [hc, hi]

theorem recompute_lookup_of_ne_confirmed (db : DB) (sid : SightingId)
    (s : SightingRow) (hs : db.sightings sid = some s)
    (hne : s.status ≠ .confirmed) :
    (recompute db sid).sightings sid =
      some { s with validationsCount := countValidations db sid,
                    status := statusFromCount s.mediaLen (countValidations db sid) } := by
  unfold recompute
  rw [hs]
  simp [hne]

/-- Any confirmed sighting row survives any recompute invocation (for its
    own id the trigger returns early; for another id the update does not
    touch it). -/
theorem recompute_preserves_confirmed (db : DB) (sid sid2 : SightingId)
    (s : SightingRow) (hs : db.sightings sid = some s)
    (hc : s.status = .confirmed) :
    (recompute db sid2).sightings sid = some s := by
  unfold recompute
  cases h2 : db.sightings sid2 with
  | none => exact hs
  | some t =>
    by_cases ht : t.status = .confirmed
    · simp [ht, hs]
    · simp only [ht]
      by_cases hid : sid = sid2
      · subst hid
        rw [hs] at h2
        cases h2
        exact absurd hc ht
      · simp [hid, hs]

/-- A successful insert through the policy and the unique index: the
    stored list gains exactly the new row and the after-insert trigger
    runs on the row's sighting. -/
theorem insertValidation_ok (db : DB) (nv : NewValidation) (fp : String)
    (hfp : nv.deviceFingerprint = some fp)
    (hlen : fingerprintLenOk fp = true)
    (hno : hasDeviceRow db nv.sightingId fp = false) :
    insertValidation db nv =
      .ok (recompute
        { db with
            validations :=
              { id := db.nextId
                sightingId := nv.sightingId
                deviceFingerprint := nv.deviceFingerprint
                isWithinRange := nv.isWithinRange
                validatorId := nv.validatorId
                validatorLat := nv.validatorLat
                validatorLng := nv.validatorLng } :: db.validations
            nextId := db.nextId + 1 } nv.sightingId) := by
  unfold insertValidation
  rw [hfp]
  simp [hlen, hno]

/-- Whatever a validation insert does, an already confirmed sighting row
    is untouched. -/
theorem insertValidation_preserves_confirmed (db db2 : DB) (nv : NewValidation)
    (sid : SightingId) (s : SightingRow)
    (hs : db.sightings sid = some s) (hc : s.status = .confirmed)
    (hok : insertValidation db nv = .ok db2) :
    db2.sightings sid = some s := by
  unfold insertValidation at hok
  cases hfp : nv.deviceFingerprint with
  | none => rw [hfp] at hok; cases hok
  | some fp =>
    rw [hfp] at hok
    by_cases hlen : fingerprintLenOk fp = true
    · by_cases hno : hasDeviceRow db nv.sightingId fp = true
      · simp [hlen, hno] at hok
      · simp [hlen, hno] at hok
        subst hok
        exact recompute_preserves_confirmed _ sid nv.sightingId s hs hc
    · simp [hlen] at hok

/-- Whatever handleValidate does, an already confirmed sighting row is
    untouched. -/
theorem handleValidate_preserves_confirmed
    (prox : GeoPos → GeoPos → Bool) (db : DB) (sid2 sid : SightingId)
    (geo : Option GeoPos) (fp : String) (uid : Option UserId)
    (s : SightingRow) (hs : db.sightings sid = some s)
    (hc : s.status = .confirmed) :
    (handleValidate prox db sid2 geo fp uid).1.sightings sid = some s := by
  unfold handleValidate
  cases h2 : db.sightings sid2 with
  | none => exact hs
  | some t =>
    cases geo with
    | none => exact hs
    | some p =>
      by_cases hp : prox p ⟨t.lat, t.lng⟩ = true
      · simp only [hp, if_true]
        cases hins : insertValidation db
            { sightingId := sid2, deviceFingerprint := some fp,
              isWithinRange := true, validatorId := uid,
              validatorLat := none, validatorLng := none } with
        | error e => cases e <;> simp [hs]
        | ok db2 =>
          simpa using insertValidation_preserves_confirmed db db2 _ sid s hs hc hins
      · simp only [Bool.not_eq_true] at hp
        simp [hp, hs]

/-- Whatever a validation delete does, an already confirmed sighting row
    is untouched. -/
theorem deleteValidation_preserves_confirmed (db : DB) (vid : Nat)
    (sid : SightingId) (s : SightingRow)
    (hs : db.sightings sid = some s) (hc : s.status = .confirmed) :
    (deleteValidation db vid).sightings sid = some s := by
  unfold deleteValidation
  cases h : db.validations.find? (fun v => v.id == vid) with
  | none => exact hs
  | some v => exact recompute_preserves_confirmed _ sid v.sightingId s hs hc

theorem applyEvent_preserves_confirmed (prox : GeoPos → GeoPos → Bool)
    (db : DB) (e : Event) (sid : SightingId) (s : SightingRow)
    (hs : db.sightings sid = some s) (hc : s.status = .confirmed) :
    (applyEvent prox db e).sightings sid = some s := by
  cases e with
  | submit sid2 geo fp uid => exact handleValidate_preserves_confirmed prox db sid2 sid geo fp uid s hs hc
  | removeValidation vid => exact deleteValidation_preserves_confirmed db vid sid s hs hc

theorem applyEvents_preserves_confirmed (prox : GeoPos → GeoPos → Bool)
    (es : List Event) (db : DB) (sid : SightingId) (s : SightingRow)
    (hs : db.sightings sid = some s) (hc : s.status = .confirmed) :
    (applyEvents prox db es).sightings sid = some s := by
  induction es generalizing db with
  | nil => exact hs
  | cons e es ih =>
    exact ih (applyEvent prox db e) (applyEvent_preserves_confirmed prox db e sid s hs hc)

/-- devUnique only looks at the stored validation rows. -/
theorem devUnique_of_validations_eq (db db2 : DB)
    (h : db.validations = db2.validations) (hu : devUnique db) : devUnique db2 := by
  unfold devUnique at hu ⊢
  rw [← h]
  exact hu

theorem devUnique_insert (db db2 : DB) (nv : NewValidation)
    (hok : insertValidation db nv = .ok db2) (hu : devUnique db) :
    devUnique db2 := by
  unfold insertValidation at hok
  cases hfp : nv.deviceFingerprint with
  | none => rw [hfp] at hok; cases hok
  | some fp =>
    rw [hfp] at hok
    by_cases hlen : fingerprintLenOk fp = true
    · by_cases hno : hasDeviceRow db nv.sightingId fp = true
      · simp [hlen, hno] at hok
      · simp [hlen, hno] at hok
        subst hok
        apply devUnique_of_validations_eq _ _ (recompute_validations _ _).symm
        unfold devUnique at hu ⊢
        simp only [List.pairwise_cons]
        constructor
        · intro w hw hcon
          rcases hcon with ⟨hsid, hdev, _⟩
          simp only at hsid hdev
          simp only [hasDeviceRow, List.any_eq_true, Bool.and_eq_true, beq_iff_eq,
            eq_self_iff_true] at hno
          exact hno ⟨w, hw, hsid.symm, hdev.symm⟩
        · exact hu
    · simp [hlen] at hok

theorem devUnique_delete (db : DB) (vid : Nat) (hu : devUnique db) :
    devUnique (deleteValidation db vid) := by
  unfold deleteValidation
  cases h : db.validations.find? (fun v => v.id == vid) with
  | none => exact hu
  | some v =>
    apply devUnique_of_validations_eq _ _ (recompute_validations _ _).symm
    unfold devUnique at hu ⊢
    exact hu.sublist (List.filter_sublist _)

theorem devUnique_handleValidate (prox : GeoPos → GeoPos → Bool) (db : DB)
    (sid : SightingId) (geo : Option GeoPos) (fp : String) (uid : Option UserId)
    (hu : devUnique db) :
    devUnique (handleValidate prox db sid geo fp uid).1 := by
  unfold handleValidate
  cases db.sightings sid with
  | none => exact hu
  | some s =>
    cases geo with
    | none => exact hu
    | some p =>
      by_cases hp : prox p ⟨s.lat, s.lng⟩ = true
      · simp only [hp, if_true]
        cases hins : insertValidation db
            { sightingId := sid, deviceFingerprint := some fp,
              isWithinRange := true, validatorId := uid,
              validatorLat := none, validatorLng := none } with
        | error e => cases e <;> exact hu
        | ok db2 => simpa using devUnique_insert db db2 _ hins hu
      · simp only [Bool.not_eq_true] at hp
        simp [hp, hu]

theorem devUnique_applyEvent (prox : GeoPos → GeoPos → Bool) (db : DB)
    (e : Event) (hu : devUnique db) : devUnique (applyEvent prox db e) := by
  cases e with
  | submit sid geo fp uid => exact devUnique_handleValidate prox db sid geo fp uid hu
  | removeValidation vid => exact devUnique_delete db vid hu

theorem devUnique_applyEvents (prox : GeoPos → GeoPos → Bool)
    (es : List Event) (db : DB) (hu : devUnique db) :
    devUnique (applyEvents prox db es) := by
  induction es generalizing db with
  | nil => exact hu
  | cons e es ih => exact ih _ (devUnique_applyEvent prox db e hu)

/-- Recomputation rewrites only validations_count and status; every other
    column of every sighting row survives. -/
theorem recompute_keeps_coords (db : DB) (sid2 sid : SightingId)
    (s : SightingRow) (hs : db.sightings sid = some s) :
    ∃ s2, (recompute db sid2).sightings sid = some s2 ∧
      s2.lat = s.lat ∧ s2.lng = s.lng ∧ s2.mediaLen = s.mediaLen := by
  unfold recompute
  cases h2 : db.sightings sid2 with
  | none => exact ⟨s, hs, rfl, rfl, rfl⟩
  | some t =>
    by_cases ht : t.status = .confirmed
    · exact ⟨s, by simp [ht, hs], rfl, rfl, rfl⟩
    · simp only [ht, if_false]
      by_cases hid : sid = sid2
      · subst hid
        rw [hs] at h2
        cases h2
        exact ⟨{ s with validationsCount := countValidations db sid,
                        status := statusFromCount s.mediaLen (countValidations db sid) },
               by simp, rfl, rfl, rfl⟩
      · exact ⟨s, by simp [hid, hs], rfl, rfl, rfl⟩

/-- An in-range submission with a fresh (sighting, device) pair is
    admitted: the row goes in and the trigger recomputes. -/
theorem handleValidate_admitted (prox : GeoPos → GeoPos → Bool) (db : DB)
    (sid : SightingId) (s : SightingRow) (p : GeoPos) (fp : String)
    (uid : Option UserId)
    (hs : db.sightings sid = some s) (hp : prox p ⟨s.lat, s.lng⟩ = true)
    (hlen : fingerprintLenOk fp = true)
    (hno : hasDeviceRow db sid fp = false) :
    handleValidate prox db sid (some p) fp uid =
      (recompute
        { db with
            validations :=
              { id := db.nextId, sightingId := sid, deviceFingerprint := some fp,
                isWithinRange := true, validatorId := uid,
                validatorLat := none, validatorLng := none } :: db.validations
            nextId := db.nextId + 1 } sid, .admitted) := by
  unfold handleValidate
  rw [hs]
  simp only [hp, if_true]
  rw [insertValidation_ok db _ fp rfl hlen hno]

/-- An in-range submission for an already consumed (sighting, device)
    pair is rejected by the unique index and changes nothing. -/
theorem handleValidate_duplicate (prox : GeoPos → GeoPos → Bool) (db : DB)
    (sid : SightingId) (s : SightingRow) (p : GeoPos) (fp : String)
    (uid : Option UserId)
    (hs : db.sightings sid = some s) (hp : prox p ⟨s.lat, s.lng⟩ = true)
    (hlen : fingerprintLenOk fp = true)
    (hyes : hasDeviceRow db sid fp = true) :
    handleValidate prox db sid (some p) fp uid = (db, .duplicateDevice) := by
  unfold handleValidate
  rw [hs]
  simp only [hp, if_true]
  unfold insertValidation
  simp [hlen, hyes]

theorem hasDeviceRow_cons_self (db : DB) (sid : SightingId) (fp : String)
    (row : ValidationRow) (hrow : row.sightingId = sid)
    (hfp : row.deviceFingerprint = some fp) (rest : List ValidationRow)
    (hv : db.validations = row :: rest) :
    hasDeviceRow db sid fp = true := by
  unfold hasDeviceRow
  rw [hv]
  simp [List.any_cons, hrow, hfp]

theorem pairCount_zero_of_no_row (db : DB) (sid : SightingId) (fp : String)
    (hno : hasDeviceRow db sid fp = false) :
    pairCount db sid fp = 0 := by
  unfold pairCount
  unfold hasDeviceRow at hno
  rw [List.any_eq_false] at hno
  rw [List.length_eq_zero, List.filter_eq_nil_iff]
  exact hno

/-- When the previous rows had no entry for the pair and one matching row
    is prepended, the pair has exactly one row. -/
theorem pairCount_cons_one (db1 db : DB) (sid : SightingId) (fp : String)
    (row : ValidationRow) (hv : db1.validations = row :: db.validations)
    (hrow : row.sightingId = sid) (hfp : row.deviceFingerprint = some fp)
    (hno : hasDeviceRow db sid fp = false) :
    pairCount db1 sid fp = 1 := by
  unfold pairCount
  rw [hv, List.filter_cons]
  have : (row.sightingId == sid && row.deviceFingerprint == some fp) = true := by
    simp [hrow, hfp]
  rw [this]
  simp only [if_true, List.length_cons]
  have h0 := pairCount_zero_of_no_row db sid fp hno
  unfold pairCount at h0
  omega

/-- A successful insert stores exactly the supplied column values (plus
    the generated id) on top of the previous rows. -/
theorem insertValidation_ok_validations (db db2 : DB) (nv : NewValidation)
    (hok : insertValidation db nv = .ok db2) :
    db2.validations =
      { id := db.nextId, sightingId := nv.sightingId,
        deviceFingerprint := nv.deviceFingerprint,
        isWithinRange := nv.isWithinRange, validatorId := nv.validatorId,
        validatorLat := nv.validatorLat, validatorLng := nv.validatorLng }
        :: db.validations := by
  unfold insertValidation at hok
  cases hfp : nv.deviceFingerprint with
  | none => rw [hfp] at hok; cases hok
  | some fp =>
    rw [hfp] at hok
    by_cases hlen : fingerprintLenOk fp = true
    · by_cases hno : hasDeviceRow db nv.sightingId fp = true
      · simp [hlen, hno] at hok
      · simp [hlen, hno] at hok
        subst hok
        rw [recompute_validations]
    · simp [hlen] at hok

theorem noRawCoords_handleValidate (prox : GeoPos → GeoPos → Bool) (db : DB)
    (sid : SightingId) (geo : Option GeoPos) (fp : String) (uid : Option UserId)
    (hn : noRawCoords db) :
    noRawCoords (handleValidate prox db sid geo fp uid).1 := by
  unfold handleValidate
  cases db.sightings sid with
  | none => exact hn
  | some s =>
    cases geo with
    | none => exact hn
    | some p =>
      by_cases hp : prox p ⟨s.lat, s.lng⟩ = true
      · simp only [hp, if_true]
        cases hins : insertValidation db
            { sightingId := sid, deviceFingerprint := some fp,
              isWithinRange := true, validatorId := uid,
              validatorLat := none, validatorLng := none } with
        | error e => cases e <;> exact hn
        | ok db2 =>
          show noRawCoords db2
          intro v hv
          rw [insertValidation_ok_validations db db2 _ hins] at hv
          rcases List.mem_cons.mp hv with rfl | hmem
          · exact ⟨rfl, rfl⟩
          · exact hn v hmem
      · simp only [Bool.not_eq_true] at hp
        simp [hp, hn]

theorem noRawCoords_delete (db : DB) (vid : Nat) (hn : noRawCoords db) :
    noRawCoords (deleteValidation db vid) := by
  unfold deleteValidation
  cases h : db.validations.find? (fun v => v.id == vid) with
  | none => exact hn
  | some v =>
    intro w hw
    rw [recompute_validations] at hw
    exact hn w (List.mem_of_mem_filter hw)

theorem noRawCoords_applyEvent (prox : GeoPos → GeoPos → Bool) (db : DB)
    (e : Event) (hn : noRawCoords db) : noRawCoords (applyEvent prox db e) := by
  cases e with
  | submit sid geo fp uid => exact noRawCoords_handleValidate prox db sid geo fp uid hn
  | removeValidation vid => exact noRawCoords_delete db vid hn

theorem noRawCoords_applyEvents (prox : GeoPos → GeoPos → Bool)
    (es : List Event) (db : DB) (hn : noRawCoords db) :
    noRawCoords (applyEvents prox db es) := by
  induction es generalizing db with
  | nil => exact hn
  | cons e es ih => exact ih _ (noRawCoords_applyEvent prox db e hn)

/-- ToInt32 lands in the signed 32-bit range, whatever it receives. -/
theorem toInt32_bounds (n : Int) :
    -2147483648 ≤ toInt32 n ∧ toInt32 n < 2147483648 := by
  unfold toInt32
  have h0 : 0 ≤ n % 4294967296 := Int.emod_nonneg n (by norm_num)
  have h1 : n % 4294967296 < 4294967296 := Int.emod_lt_of_pos n (by norm_num)
  simp only []
  split_ifs <;> omega

/-- The hash accumulator stays a signed 32-bit integer through the loop. -/
theorem hashCombined_bounds (s : String) :
    -2147483648 ≤ hashCombined s ∧ hashCombined s < 2147483648 := by
  unfold hashCombined
  generalize s.data = l
  have step : ∀ (l : List Char) (h : Int),
      -2147483648 ≤ h ∧ h < 2147483648 →
      -2147483648 ≤ l.foldl (fun h ch => hashStep h ch.toNat) h ∧
        l.foldl (fun h ch => hashStep h ch.toNat) h < 2147483648 := by
    intro l
    induction l with
    | nil => intro h hh; exact hh
    | cons c cs ih =>
      intro h _
      exact ih (hashStep h c.toNat) (toInt32_bounds _)
  exact step l 0 (by norm_num)

/-- At most k base-36 digits come out of a number below 36 ^ k. -/
theorem toBase36Aux_length_le (fuel : Nat) :
    ∀ n k, 1 ≤ k → n < 36 ^ k → (toBase36Aux fuel n).length ≤ k := by
  induction fuel with
  | zero => intro n k hk _; simp [toBase36Aux]
  | succ fuel ih =>
    intro n k hk hn
    unfold toBase36Aux
    by_cases hsmall : n < 36
    · simpa [hsmall] using hk
    · have hk2 : 2 ≤ k := by
        by_contra hlt
        have hk1 : k = 1 := by omega
        rw [hk1, pow_one] at hn
        exact hsmall hn
      have hdiv : n / 36 < 36 ^ (k - 1) := by
        have hmul : n < 36 * 36 ^ (k - 1) := by
          have : 36 * 36 ^ (k - 1) = 36 ^ k := by
            rw [← pow_succ']
            congr 1
            omega
          omega
        exact Nat.div_lt_of_lt_mul hmul
      have hrec := ih (n / 36) (k - 1) (by omega) hdiv
      simp only [hsmall, if_false, List.length_append, List.length_cons,
        List.length_nil]
      omega

theorem toBase36_length_le (n k : Nat) (hk : 1 ≤ k) (hn : n < 36 ^ k) :
    (toBase36 n).length ≤ k :=
  toBase36Aux_length_le (n + 1) n k hk hn

theorem natToString36_length_le (n k : Nat) (hk : 1 ≤ k) (hn : n < 36 ^ k) :
    (natToString36 n).length ≤ k :=
  toBase36_length_le n k hk hn

/-! ### Claim theorems -/

/-- C1: for every sighting whose current status is not confirmed,
    recompute sets validations_count to the number of validation rows
    referencing the sighting and sets status to verified exactly when
    that count reaches the effective threshold — 2 with at least one
    media attachment, 3 otherwise — and to unverified otherwise. -/
theorem recompute_sets_count_and_threshold_status
    (db : DB) (sid : SightingId) (s : SightingRow)
    (hs : db.sightings sid = some s) (hne : s.status ≠ .confirmed) :
    (recompute db sid).sightings sid =
      some { s with
        validationsCount := countValidations db sid,
        status :=
          if countValidations db sid ≥ (if 0 < s.mediaLen then 2 else 3)
          then .verified else .unverified } := by
  rw [recompute_lookup_of_ne_confirmed db sid s hs hne, statusFromCount_spec]

theorem recompute_sets_count_and_threshold_status_witness :
    db0.sightings 1 = some sightingOne ∧ sightingOne.status ≠ .confirmed ∧
    (recompute db0 1).sightings 1 =
      some { sightingOne with
        validationsCount := countValidations db0 1,
        status :=
          if countValidations db0 1 ≥ (if 0 < sightingOne.mediaLen then 2 else 3)
          then .verified else .unverified } :=
  ⟨by decide, by decide,
    recompute_sets_count_and_threshold_status db0 1 sightingOne (by decide) (by decide)⟩

/-- C2: for a sighting whose current status is confirmed, recompute is a
    no-op on the whole state, and no sequence of validation submissions
    or deletions ever changes the sighting's status or count. -/
theorem recompute_noop_on_confirmed
    (db : DB) (sid : SightingId) (s : SightingRow)
    (hs : db.sightings sid = some s) (hc : s.status = .confirmed) :
    recompute db sid = db ∧
    ∀ (prox : GeoPos → GeoPos → Bool) (es : List Event),
      (applyEvents prox db es).sightings sid = some s := by
  constructor
  · unfold recompute
    rw [hs]
    simp [hc]
  · intro prox es
    exact applyEvents_preserves_confirmed prox es db sid s hs hc

theorem recompute_noop_on_confirmed_witness :
    db0.sightings 2 = some sightingTwo ∧ sightingTwo.status = .confirmed ∧
    (recompute db0 2 = db0 ∧
      ∀ (prox : GeoPos → GeoPos → Bool) (es : List Event),
        (applyEvents prox db0 es).sightings 2 = some sightingTwo) :=
  ⟨by decide, by decide,
    recompute_noop_on_confirmed db0 2 sightingTwo (by decide) (by decide)⟩

/-- C3: the partial unique index keeps at most one validation row per
    (sighting, device fingerprint) pair through every operation, and two
    submissions of the same pair — in either order, with any positions
    and principals — yield one admission and one duplicate-device
    rejection, with exactly one stored row for the pair. -/
theorem one_validation_per_device :
    (∀ (prox : GeoPos → GeoPos → Bool) (db : DB) (es : List Event),
        devUnique db → devUnique (applyEvents prox db es)) ∧
    (∀ (prox : GeoPos → GeoPos → Bool) (db : DB) (sid : SightingId)
        (s : SightingRow) (p1 p2 : GeoPos) (fp : String)
        (uid1 uid2 : Option UserId),
        db.sightings sid = some s →
        prox p1 ⟨s.lat, s.lng⟩ = true → prox p2 ⟨s.lat, s.lng⟩ = true →
        fingerprintLenOk fp = true → hasDeviceRow db sid fp = false →
        (handleValidate prox db sid (some p1) fp uid1).2 = .admitted ∧
        (handleValidate prox (handleValidate prox db sid (some p1) fp uid1).1
            sid (some p2) fp uid2).2 = .duplicateDevice ∧
        pairCount (handleValidate prox (handleValidate prox db sid (some p1) fp uid1).1
            sid (some p2) fp uid2).1 sid fp = 1) := by
  constructor
  · exact fun prox db es hu => devUnique_applyEvents prox es db hu
  · intro prox db sid s p1 p2 fp uid1 uid2 hs hp1 hp2 hlen hno
    rw [handleValidate_admitted prox db sid s p1 fp uid1 hs hp1 hlen hno]
    set dbIns : DB :=
      { db with
          validations :=
            { id := db.nextId, sightingId := sid, deviceFingerprint := some fp,
              isWithinRange := true, validatorId := uid1,
              validatorLat := none, validatorLng := none } :: db.validations
          nextId := db.nextId + 1 } with hdbIns
    have hsIns : dbIns.sightings sid = some s := hs
    obtain ⟨s2, hlook, hlat, hlng, _⟩ :=
      recompute_keeps_coords dbIns sid sid s hsIns
    have hval : (recompute dbIns sid).validations =
        { id := db.nextId, sightingId := sid, deviceFingerprint := some fp,
          isWithinRange := true, validatorId := uid1,
          validatorLat := none, validatorLng := none } :: db.validations := by
      rw [recompute_validations]
    have hyes : hasDeviceRow (recompute dbIns sid) sid fp = true :=
      hasDeviceRow_cons_self _ sid fp _ rfl rfl _ hval
    have hp2b : prox p2 ⟨s2.lat, s2.lng⟩ = true := by
      rw [hlat, hlng]
      exact hp2
    rw [handleValidate_duplicate prox (recompute dbIns sid) sid s2 p2 fp uid2
      hlook hp2b hlen hyes]
    refine ⟨rfl, rfl, ?_⟩
    exact pairCount_cons_one _ db sid fp _ hval rfl rfl hno

theorem one_validation_per_device_witness :
    devUnique db0 ∧
    devUnique (applyEvents proxSameLat db0 [.submit 1 (some ⟨0, 3⟩) fpA none]) ∧
    db0.sightings 1 = some sightingOne ∧
    proxSameLat ⟨0, 3⟩ ⟨sightingOne.lat, sightingOne.lng⟩ = true ∧
    fingerprintLenOk fpA = true ∧ hasDeviceRow db0 1 fpA = false ∧
    ((handleValidate proxSameLat db0 1 (some ⟨0, 3⟩) fpA none).2 = .admitted ∧
      (handleValidate proxSameLat
          (handleValidate proxSameLat db0 1 (some ⟨0, 3⟩) fpA none).1
          1 (some ⟨0, 4⟩) fpA (some 7)).2 = .duplicateDevice ∧
      pairCount (handleValidate proxSameLat
          (handleValidate proxSameLat db0 1 (some ⟨0, 3⟩) fpA none).1
          1 (some ⟨0, 4⟩) fpA (some 7)).1 1 fpA = 1) :=
  ⟨by decide,
    one_validation_per_device.1 proxSameLat db0 [.submit 1 (some ⟨0, 3⟩) fpA none]
      (by decide),
    by decide, by decide, by decide, by decide,
    one_validation_per_device.2 proxSameLat db0 1 sightingOne ⟨0, 3⟩ ⟨0, 4⟩ fpA
      none (some 7) (by decide) (by decide) (by decide) (by decide) (by decide)⟩

/-- C4: an out-of-range submission is rejected as out of range with the
    state untouched — no row, no recomputation — so the very same device
    can later submit from within range and be admitted. -/
theorem out_of_range_persists_nothing
    (prox : GeoPos → GeoPos → Bool) (db : DB) (sid : SightingId)
    (s : SightingRow) (p : GeoPos) (fp : String) (uid : Option UserId)
    (hs : db.sightings sid = some s)
    (hp : prox p ⟨s.lat, s.lng⟩ = false) :
    handleValidate prox db sid (some p) fp uid = (db, .outOfRange) ∧
    (∀ (p2 : GeoPos) (uid2 : Option UserId),
        prox p2 ⟨s.lat, s.lng⟩ = true → fingerprintLenOk fp = true →
        hasDeviceRow db sid fp = false →
        (handleValidate prox db sid (some p2) fp uid2).2 = .admitted) := by
  constructor
  · unfold handleValidate
    rw [hs]
    simp [hp]
  · intro p2 uid2 hp2 hlen hno
    rw [handleValidate_admitted prox db sid s p2 fp uid2 hs hp2 hlen hno]

theorem out_of_range_persists_nothing_witness :
    db0.sightings 1 = some sightingOne ∧
    proxSameLat ⟨9, 9⟩ ⟨sightingOne.lat, sightingOne.lng⟩ = false ∧
    (handleValidate proxSameLat db0 1 (some ⟨9, 9⟩) fpA none = (db0, .outOfRange) ∧
      ∀ (p2 : GeoPos) (uid2 : Option UserId),
        proxSameLat p2 ⟨sightingOne.lat, sightingOne.lng⟩ = true →
        fingerprintLenOk fpA = true → hasDeviceRow db0 1 fpA = false →
        (handleValidate proxSameLat db0 1 (some p2) fpA uid2).2 = .admitted) :=
  ⟨by decide, by decide,
    out_of_range_persists_nothing proxSameLat db0 1 sightingOne ⟨9, 9⟩ fpA none
      (by decide) (by decide)⟩

/-- C5 counterexample: a sighting that is verified with three validations
    and no media drops back to unverified when one validation is deleted
    and the after-delete trigger recomputes — automatic recomputation
    does move verified back to unverified. -/
theorem verified_reverts_after_delete :
    (dbVerifiedThree.sightings 1).map SightingRow.status = some .verified ∧
    ((deleteValidation dbVerifiedThree 3).sightings 1).map SightingRow.status =
      some .unverified := by
  decide

/-- C5 amended: a recomputation triggered by a validation deletion
    re-derives the status of a non-confirmed sighting from the remaining
    rows by the threshold rule — verified exactly when the remaining
    count still reaches the effective threshold, unverified otherwise;
    only a confirmed status is immune. -/
theorem delete_recompute_follows_threshold
    (db : DB) (sid : SightingId) (s : SightingRow) (vid : Nat)
    (v : ValidationRow)
    (hs : db.sightings sid = some s) (hne : s.status ≠ .confirmed)
    (hfind : db.validations.find? (fun w => w.id == vid) = some v)
    (hvsid : v.sightingId = sid) :
    (deleteValidation db vid).sightings sid =
      some { s with
        validationsCount :=
          countValidations
            { db with validations := db.validations.filter (fun w => w.id != vid) } sid,
        status :=
          if countValidations
              { db with validations := db.validations.filter (fun w => w.id != vid) } sid
              ≥ (if 0 < s.mediaLen then 2 else 3)
          then .verified else .unverified } := by
  unfold deleteValidation
  rw [hfind]
  dsimp only
  rw [hvsid]
  rw [recompute_lookup_of_ne_confirmed
        { db with validations := db.validations.filter (fun w => w.id != vid) }
        sid s hs hne,
      statusFromCount_spec]

theorem delete_recompute_follows_threshold_witness :
    dbVerifiedThree.sightings 1 =
      some { lat := 0, lng := 0, mediaLen := 0, status := .verified,
             validationsCount := 3 } ∧
    (Status.verified ≠ Status.confirmed) ∧
    dbVerifiedThree.validations.find? (fun w => w.id == 3) =
      some ⟨3, 1, some fpC, true, none, none, none⟩ ∧
    (deleteValidation dbVerifiedThree 3).sightings 1 =
      some { lat := 0, lng := 0, mediaLen := 0,
             status :=
               if countValidations
                   { dbVerifiedThree with
                       validations :=
                         dbVerifiedThree.validations.filter (fun w => w.id != 3) } 1
                   ≥ (if 0 < (0 : Nat) then 2 else 3)
               then Status.verified else .unverified,
             validationsCount :=
               countValidations
                 { dbVerifiedThree with
                     validations :=
                       dbVerifiedThree.validations.filter (fun w => w.id != 3) } 1 } :=
  ⟨by decide, by decide, by decide,
    delete_recompute_follows_threshold dbVerifiedThree 1
      { lat := 0, lng := 0, mediaLen := 0, status := .verified,
        validationsCount := 3 } 3
      ⟨3, 1, some fpC, true, none, none, none⟩
      (by decide) (by decide) (by decide) (by decide)⟩

/-- C6: the manual confirm override succeeds exactly for actors whose
    profile role is trusted or admin; on success it sets the sighting's
    status to confirmed outright, whatever its validation count — zero
    included — and any other actor is refused with nothing changed. -/
theorem confirm_requires_trusted_or_admin :
    (∀ (db : DB) (actor : UserId) (sid : SightingId),
        (confirmSighting db actor sid).2 = .confirmedOk ↔
          db.profiles actor = some .trusted ∨ db.profiles actor = some .admin) ∧
    (∀ (db : DB) (actor : UserId) (sid : SightingId) (s : SightingRow),
        isTrustedOrAdmin (db.profiles actor) = true →
        db.sightings sid = some s →
        (confirmSighting db actor sid).1.sightings sid =
          some { s with status := .confirmed }) ∧
    (∀ (db : DB) (actor : UserId) (sid : SightingId),
        isTrustedOrAdmin (db.profiles actor) = false →
        confirmSighting db actor sid = (db, .forbidden)) := by
  refine ⟨?_, ?_, ?_⟩
  · intro db actor sid
    unfold confirmSighting
    by_cases h : isTrustedOrAdmin (db.profiles actor) = true
    · simp only [h, if_true]
      unfold isTrustedOrAdmin at h
      simp only [Bool.or_eq_true, beq_iff_eq] at h
      simpa using h
    · simp only [Bool.not_eq_true] at h
      simp only [h, Bool.false_eq_true, if_false]
      unfold isTrustedOrAdmin at h
      simp only [Bool.or_eq_false_iff, beq_eq_false_iff_ne, ne_eq] at h
      constructor
      · intro hout
        cases hout
      · intro hrole
        rcases hrole with hrole | hrole
        · exact absurd hrole h.1
        · exact absurd hrole h.2
  · intro db actor sid s hrole hsight
    unfold confirmSighting
    simp [hrole, hsight]
  · intro db actor sid hrole
    unfold confirmSighting
    simp [hrole]

theorem confirm_requires_trusted_or_admin_witness :
    ((confirmSighting db0 7 1).2 = .confirmedOk ↔
      db0.profiles 7 = some .trusted ∨ db0.profiles 7 = some .admin) ∧
    isTrustedOrAdmin (db0.profiles 7) = true ∧
    sightingOne.validationsCount = 0 ∧
    (confirmSighting db0 7 1).1.sightings 1 =
      some { sightingOne with status := .confirmed } ∧
    isTrustedOrAdmin (db0.profiles 8) = false ∧
    confirmSighting db0 8 1 = (db0, .forbidden) :=
  ⟨confirm_requires_trusted_or_admin.1 db0 7 1,
    by decide, by decide,
    confirm_requires_trusted_or_admin.2.1 db0 7 1 sightingOne (by decide) (by decide),
    by decide,
    confirm_requires_trusted_or_admin.2.2 db0 8 1 (by decide)⟩

/-- C7: no operation ever stores validator coordinates — the privacy
    invariant survives every submission and deletion — and the row an
    admitted submission stores carries exactly the proximity boolean
    (true), the fingerprint and the optional principal, with the
    deprecated coordinate columns null. -/
theorem no_validator_coordinates_stored :
    (∀ (prox : GeoPos → GeoPos → Bool) (db : DB) (es : List Event),
        noRawCoords db → noRawCoords (applyEvents prox db es)) ∧
    (∀ (prox : GeoPos → GeoPos → Bool) (db : DB) (sid : SightingId)
        (s : SightingRow) (p : GeoPos) (fp : String) (uid : Option UserId),
        db.sightings sid = some s → prox p ⟨s.lat, s.lng⟩ = true →
        fingerprintLenOk fp = true → hasDeviceRow db sid fp = false →
        (handleValidate prox db sid (some p) fp uid).1.validations =
          { id := db.nextId, sightingId := sid, deviceFingerprint := some fp,
            isWithinRange := true, validatorId := uid,
            validatorLat := none, validatorLng := none } :: db.validations) := by
  constructor
  · exact fun prox db es hn => noRawCoords_applyEvents prox es db hn
  · intro prox db sid s p fp uid hs hp hlen hno
    rw [handleValidate_admitted prox db sid s p fp uid hs hp hlen hno]
    exact recompute_validations _ _

theorem no_validator_coordinates_stored_witness :
    noRawCoords db0 ∧
    noRawCoords (applyEvents proxSameLat db0
      [.submit 1 (some ⟨0, 3⟩) fpA none, .removeValidation 10]) ∧
    db0.sightings 1 = some sightingOne ∧
    proxSameLat ⟨0, 3⟩ ⟨sightingOne.lat, sightingOne.lng⟩ = true ∧
    (handleValidate proxSameLat db0 1 (some ⟨0, 3⟩) fpA none).1.validations =
      { id := db0.nextId, sightingId := 1, deviceFingerprint := some fpA,
        isWithinRange := true, validatorId := none,
        validatorLat := none, validatorLng := none } :: db0.validations :=
  ⟨by decide,
    no_validator_coordinates_stored.1 proxSameLat db0
      [.submit 1 (some ⟨0, 3⟩) fpA none, .removeValidation 10] (by decide),
    by decide, by decide,
    no_validator_coordinates_stored.2 proxSameLat db0 1 sightingOne ⟨0, 3⟩ fpA
      none (by decide) (by decide) (by decide) (by decide)⟩

/-- C8 divergence: for every device token, sighting id and clock reading
    up to the year 2059 (36 ^ 8 ms), generateValidatorHash returns at
    most 6 + 8 = 14 characters, so its output always fails the
    repository's own 16..256 length constraint — the claimed lower bound
    of 16 never holds. -/
theorem generateValidatorHash_shorter_than_16
    (deviceToken sightingId : String) (nowMs : Nat)
    (hnow : nowMs < 2821109907456) :
    validatorHashLenOk (generateValidatorHash deviceToken sightingId nowMs) = false := by
  have hb := hashCombined_bounds (deviceToken ++ ":" ++ sightingId)
  have habs : (hashCombined (deviceToken ++ ":" ++ sightingId)).natAbs < 36 ^ 6 := by
    have h6 : (36 : Nat) ^ 6 = 2176782336 := by norm_num
    omega
  have h1 : (natToString36
      (hashCombined (deviceToken ++ ":" ++ sightingId)).natAbs).length ≤ 6 :=
    natToString36_length_le _ 6 (by norm_num) habs
  have h2 : (natToString36 nowMs).length ≤ 8 := by
    apply natToString36_length_le _ 8 (by norm_num)
    have h8 : (36 : Nat) ^ 8 = 2821109907456 := by norm_num
    omega
  have hlen : (generateValidatorHash deviceToken sightingId nowMs).length ≤ 14 := by
    unfold generateValidatorHash
    rw [String.length_append]
    omega
  have hnot : ¬ (16 ≤ (generateValidatorHash deviceToken sightingId nowMs).length) := by
    omega
  unfold validatorHashLenOk
  simp [hnot]

theorem generateValidatorHash_shorter_than_16_witness :
    (1760140800000 < 2821109907456) ∧
    validatorHashLenOk (generateValidatorHash tokenW sidW 1760140800000) = false :=
  ⟨by norm_num,
    generateValidatorHash_shorter_than_16 tokenW sidW 1760140800000 (by norm_num)⟩

/-- C9 divergence: with the persisted device token and the sighting id
    both unchanged, two calls one millisecond apart return different
    identifiers, because the function appends the current clock reading
    in base 36 — the identifier is not stable across repeated calls. -/
theorem generateValidatorHash_not_stable :
    generateValidatorHash tokenW sidW 1760140800000 ≠
      generateValidatorHash tokenW sidW 1760140800001 := by
  unfold generateValidatorHash
  intro h
  have hdata := congrArg String.data h
  rw [String.data_append, String.data_append] at hdata
  have htail : (natToString36 1760140800000).data =
      (natToString36 1760140800001).data :=
    List.append_cancel_left hdata
  exact absurd htail (by decide)

/-- C10: recompute is idempotent — running it a second time with no
    intervening change reproduces the same database state, in particular
    the same validations_count and status. -/
theorem recompute_idempotent (db : DB) (sid : SightingId) :
    recompute (recompute db sid) sid = recompute db sid := by
  cases hs : db.sightings sid with
  | none =>
    have h : recompute db sid = db := by
      unfold recompute
      rw [hs]
    rw [h]
    exact h
  | some s =>
    by_cases hc : s.status = .confirmed
    · have h : recompute db sid = db := by
        unfold recompute
        rw [hs]
        simp [hc]
      rw [h]
      exact h
    · have hval := recompute_validations db sid
      have hcnt2 : countValidations (recompute db sid) sid = countValidations db sid :=
        countValidations_only_validations _ _ _ hval
      have hlook1 := recompute_lookup_of_ne_confirmed db sid s hs hc
      have hs2ne : ({ s with
          validationsCount := countValidations db sid,
          status := statusFromCount s.mediaLen (countValidations db sid) } :
            SightingRow).status ≠ .confirmed :=
        statusFromCount_ne_confirmed _ _
      have hlook2 := recompute_lookup_of_ne_confirmed (recompute db sid) sid _ hlook1 hs2ne
      apply DB_ext
      · funext i
        by_cases hi : i = sid
        · subst hi
          rw [hlook2, hlook1, hcnt2]
        · rw [recompute_sightings_other _ _ _ hi]
      · exact recompute_validations _ _
      · exact recompute_profiles _ _
      · exact recompute_nextId _ _

end IceOut
